import Mathlib

/-!
Shallow embedding of the template-manager frontend
(`TemplateManager` component and the proxy route handlers) of the
product-sheet generation repository.

The component keeps five pieces of React state that the editing logic
reads and writes (`templates`, `activeTemplate`, `editedTemplate`,
`error`, `success`).  Each event handler is embedded as a pure function
from that state (plus the outcome of any backend call, passed in as an
`Except` value) to the new state together with the list of HTTP requests
it issues and the list of toast notifications it fires.

TypeScript declares every `Section` field as present, but the save path
defends at runtime against `undefined` fields coming from the backend,
so every field other than `id` is modelled as an `Option`; JavaScript
truthiness on those fields is made explicit (`jsOrStr`, `jsTruthy`).
-/

namespace TM

/-- JSON values, used only by the proxy-handler embedding. -/
inductive JsonVal where
  | null : JsonVal
  | bool (b : Bool) : JsonVal
  | num (n : Int) : JsonVal
  | str (s : String) : JsonVal
  | arr (xs : List JsonVal) : JsonVal
  | obj (kvs : List (String × JsonVal)) : JsonVal

/-- The `message` and `stack` of a thrown JavaScript error, as read by the
`catch (error: any)` blocks of the route handlers. -/
structure ErrInfo where
  message : String
  stack : String
deriving DecidableEq

/-- A `NextResponse.json(body, {status})` value; `NextResponse.json(body)`
defaults to status 200. -/
inductive ProxyResponse where
  | json (body : JsonVal) (status : Nat) : ProxyResponse

/-- The `{error, details, stack}` body built in every `catch` block of the
route handlers. -/
def errorPayload (label : String) (e : ErrInfo) : JsonVal :=
  JsonVal.obj
    [("error", JsonVal.str label),
     ("details", JsonVal.str e.message),
     ("stack", JsonVal.str e.stack)]

/-- Embeds the GET handler of the templates proxy route: forward
`axios.get(API_URL + "/templates")`; on success return its data, on any
thrown error return the fixed-shape error object with status 500. -/
def routeTemplatesGET (backend : Except ErrInfo JsonVal) : ProxyResponse :=
  match backend with
  | Except.ok data => ProxyResponse.json data 200
  | Except.error e =>
      ProxyResponse.json
        (errorPayload "Erreur lors de la récupération des templates" e) 500

/-- Embeds the POST handler of the generate-with-rag proxy route: parse the request
body (`request.json()`), forward it with `axios.post`, return the backend
data on success; any thrown error (parse failure or backend failure) is
caught and becomes the fixed-shape error object with status 500. -/
def routeGenerateWithRagPOST (parsed : Except ErrInfo JsonVal)
    (backend : JsonVal → Except ErrInfo JsonVal) : ProxyResponse :=
  match parsed with
  | Except.error e =>
      ProxyResponse.json (errorPayload "Erreur lors de la génération avec RAG" e) 500
  | Except.ok data =>
      match backend data with
      | Except.ok rdata => ProxyResponse.json rdata 200
      | Except.error e =>
          ProxyResponse.json (errorPayload "Erreur lors de la génération avec RAG" e) 500

/-- Status code of a proxy response. -/
def statusOf : ProxyResponse → Nat
  | ProxyResponse.json _ s => s

/-- The `details` field of a proxy response body, when the body is an
object carrying a string there. -/
def detailsOf : ProxyResponse → Option String
  | ProxyResponse.json (JsonVal.obj kvs) _ =>
      match kvs.lookup "details" with
      | some (JsonVal.str s) => some s
      | _ => none
  | _ => none

/-- A template section as held in component state.  `id` is always
present; every other field is `Option`-valued because the save path
guards each one against `undefined` at runtime. -/
structure Section where
  id : String
  name : Option String
  description : Option String
  required : Option Bool
  default_enabled : Option Bool
  order : Option Int
  rag_query_template : Option String
  prompt_template : Option String
deriving DecidableEq

/-- A section after the validation pass of `handleSave`: every field concrete. -/
structure VSection where
  id : String
  name : String
  description : String
  required : Bool
  default_enabled : Bool
  order : Int
  rag_query_template : String
  prompt_template : String
deriving DecidableEq

/-- A template as held in component state.  `id` is `Option`-valued: the
save decision (`!editedTemplate.id`) explicitly allows an absent id. -/
structure Template where
  id : Option String
  name : String
  description : String
  sections : List Section
  is_default : Bool
  is_custom : Bool
deriving DecidableEq

/-- The React state cells of `TemplateManager` that the editing logic
reads and writes. -/
structure ManagerState where
  templates : List Template
  activeTemplate : Option Template
  editedTemplate : Option Template
  error : Option String
  success : Option String
deriving DecidableEq

/-- A `toast(...)` notification; `destructive` records
`variant: "destructive"`. -/
structure Toast where
  title : String
  description : String
  destructive : Bool
deriving DecidableEq

/-- The body sent by `handleSave` (`{name, description, sections, is_default}`). -/
structure SaveBody where
  name : String
  description : String
  sections : List VSection
  is_default : Bool
deriving DecidableEq

/-- An HTTP request issued by an event handler. -/
inductive Request where
  | fetchList : Request
  | create (body : SaveBody) : Request
  | update (id : String) (body : SaveBody) : Request
  | deleteT (id : String) : Request
deriving DecidableEq

/-- Result of running one event handler: the new component state, the
backend requests it issued, and the toasts it fired. -/
structure Output where
  state : ManagerState
  requests : List Request
  toasts : List Toast
deriving DecidableEq

/-- JavaScript `a || d` on an optional string: `undefined` and `""` are
falsy, any other string is kept. -/
def jsOrStr (v : Option String) (d : String) : String :=
  match v with
  | none => d
  | some s => if s = "" then d else s

/-- JavaScript truthiness of an optional boolean (`undefined` is falsy). -/
def jsTruthy (b : Option Bool) : Bool := b.getD false

/-- JavaScript template-literal interpolation of a possibly-undefined id. -/
def jsId (id : Option String) : String := id.getD "undefined"

/-- JavaScript `s.startsWith(p)`, computed over the character list. -/
def jsStartsWith (s p : String) : Bool := p.data.isPrefixOf s.data

/-- JavaScript `s.trim()`: strip leading and trailing whitespace. -/
def jsTrim (s : String) : String :=
  String.mk (((s.data.dropWhile Char.isWhitespace).reverse.dropWhile
    Char.isWhitespace).reverse)

/-- Embeds `fetchTemplates`: clear the error, issue a GET of the template list;
on success store the list and, when no template is currently active and
the list is non-empty, select its first entry and seed the edit buffer
with a (deep) copy of it; on failure set the error banner and fire a
destructive toast. -/
def fetchTemplates (st : ManagerState) (outcome : Except String (List Template)) :
    Output :=
  let st0 := { st with error := none }
  match outcome with
  | Except.error msg =>
      ⟨{ st0 with error := some ("Erreur lors du chargement des templates: " ++ msg) },
       [Request.fetchList],
       [⟨"Erreur", "Impossible de charger les templates. Veuillez réessayer.", true⟩]⟩
  | Except.ok l =>
      let st1 := { st0 with templates := l }
      match l, st1.activeTemplate with
      | t :: _, none =>
          ⟨{ st1 with activeTemplate := some t, editedTemplate := some t },
           [Request.fetchList], []⟩
      | _, _ => ⟨st1, [Request.fetchList], []⟩

/-- Embeds `handleTemplateChange`: make the clicked template active and replace
the edit buffer with a deep copy of it. -/
def handleTemplateChange (st : ManagerState) (t : Template) : ManagerState :=
  { st with activeTemplate := some t, editedTemplate := some t }

/-- A field-level edit as passed to `handleSectionChange`: the field name
together with the value the UI control produced for it. -/
inductive FieldUpdate where
  | id (v : String) : FieldUpdate
  | name (v : String) : FieldUpdate
  | description (v : String) : FieldUpdate
  | required (v : Bool) : FieldUpdate
  | default_enabled (v : Bool) : FieldUpdate
  | order (v : Int) : FieldUpdate
  | rag_query_template (v : String) : FieldUpdate
  | prompt_template (v : String) : FieldUpdate
deriving DecidableEq

/-- Names of the fields of a section, used to state frame properties. -/
inductive FieldName where
  | idF | nameF | descF | reqF | defEnF | orderF | ragF | promptF
deriving DecidableEq

/-- A field value, for reading a section field uniformly. -/
inductive FieldVal where
  | str (s : String) : FieldVal
  | ostr (v : Option String) : FieldVal
  | obool (v : Option Bool) : FieldVal
  | oint (v : Option Int) : FieldVal
deriving DecidableEq

/-- The field a `FieldUpdate` writes. -/
def fieldTarget : FieldUpdate → FieldName
  | FieldUpdate.id _ => FieldName.idF
  | FieldUpdate.name _ => FieldName.nameF
  | FieldUpdate.description _ => FieldName.descF
  | FieldUpdate.required _ => FieldName.reqF
  | FieldUpdate.default_enabled _ => FieldName.defEnF
  | FieldUpdate.order _ => FieldName.orderF
  | FieldUpdate.rag_query_template _ => FieldName.ragF
  | FieldUpdate.prompt_template _ => FieldName.promptF

/-- The value a `FieldUpdate` writes, as stored in the section. -/
def fieldVal : FieldUpdate → FieldVal
  | FieldUpdate.id v => FieldVal.str v
  | FieldUpdate.name v => FieldVal.ostr (some v)
  | FieldUpdate.description v => FieldVal.ostr (some v)
  | FieldUpdate.required v => FieldVal.obool (some v)
  | FieldUpdate.default_enabled v => FieldVal.obool (some v)
  | FieldUpdate.order v => FieldVal.oint (some v)
  | FieldUpdate.rag_query_template v => FieldVal.ostr (some v)
  | FieldUpdate.prompt_template v => FieldVal.ostr (some v)

/-- Read one field of a section. -/
def getF (s : Section) : FieldName → FieldVal
  | FieldName.idF => FieldVal.str s.id
  | FieldName.nameF => FieldVal.ostr s.name
  | FieldName.descF => FieldVal.ostr s.description
  | FieldName.reqF => FieldVal.obool s.required
  | FieldName.defEnF => FieldVal.obool s.default_enabled
  | FieldName.orderF => FieldVal.oint s.order
  | FieldName.ragF => FieldVal.ostr s.rag_query_template
  | FieldName.promptF => FieldVal.ostr s.prompt_template

/-- Embeds the spread update that replaces one field of a section. -/
def setField (s : Section) : FieldUpdate → Section
  | FieldUpdate.id v => { s with id := v }
  | FieldUpdate.name v => { s with name := some v }
  | FieldUpdate.description v => { s with description := some v }
  | FieldUpdate.required v => { s with required := some v }
  | FieldUpdate.default_enabled v => { s with default_enabled := some v }
  | FieldUpdate.order v => { s with order := some v }
  | FieldUpdate.rag_query_template v => { s with rag_query_template := some v }
  | FieldUpdate.prompt_template v => { s with prompt_template := some v }

/-- Embeds `handleSectionChange`: if an edit buffer exists, copy its section list
and replace the section at `i` by a copy with one field overwritten; only
the edit buffer is written.  An out-of-range index (never produced by the
UI, which maps over the section list) leaves the list unchanged, where
the JS array assignment would instead create a sparse array. -/
def handleSectionChange (st : ManagerState) (i : Nat) (f : FieldUpdate) :
    ManagerState :=
  match st.editedTemplate with
  | none => st
  | some t =>
      match t.sections.get? i with
      | none => st
      | some s =>
          { st with
              editedTemplate := some ({ t with sections := t.sections.set i (setField s f) }) }

/-- The section appended by `addSection` (`section_${Date.now()}` id,
placeholder content, `order` = previous length + 1). -/
def newSection (now : Nat) (len : Nat) : Section :=
  { id := "section_" ++ toString now,
    name := some "Nouvelle section",
    description := some "Description de la nouvelle section",
    required := some false,
    default_enabled := some true,
    order := some ((len : Int) + 1),
    rag_query_template := some "informations sur {product_name} dans la catégorie {product_category}",
    prompt_template := some "Générer une section sur {product_name} en utilisant les informations suivantes: {client_data_context}" }

/-- Embeds `addSection`: a no-op unless the edit buffer holds a custom template;
otherwise append `newSection` and fire a toast.  `now` stands for
`Date.now()`. -/
def addSection (st : ManagerState) (now : Nat) : Output :=
  match st.editedTemplate with
  | none => ⟨st, [], []⟩
  | some t =>
      if t.is_custom then
        ⟨{ st with
             editedTemplate := some ({ t with sections := t.sections ++ [newSection now t.sections.length] }) },
         [],
         [⟨"Section ajoutée", "Une nouvelle section a été ajoutée au template.", false⟩]⟩
      else ⟨st, [], []⟩

/-- Embeds the renumbering loop over the spliced list,
with `k` the number of sections already renumbered. -/
def renumberFrom : Nat → List Section → List Section
  | _, [] => []
  | k, s :: rest => { s with order := some ((k : Int) + 1) } :: renumberFrom (k + 1) rest

/-- Renumber every section order to its position + 1. -/
def renumber (l : List Section) : List Section := renumberFrom 0 l

/-- The toast fired when deleting a required section is refused. -/
def rejectToast : Toast :=
  ⟨"Action impossible", "Impossible de supprimer une section obligatoire.", true⟩

/-- Embeds `deleteSection`: a no-op unless the edit buffer holds a custom
template; refuse (toast only) when the target section is `required`;
otherwise splice the section out and renumber the remaining orders.  For
an out-of-range index the JS code throws a `TypeError` before any state
update, so the state is likewise unchanged. -/
def deleteSection (st : ManagerState) (i : Nat) : Output :=
  match st.editedTemplate with
  | none => ⟨st, [], []⟩
  | some t =>
      if t.is_custom then
        match t.sections.get? i with
        | none => ⟨st, [], []⟩
        | some s =>
            if jsTruthy s.required then ⟨st, [], [rejectToast]⟩
            else
              ⟨{ st with
                   editedTemplate := some ({ t with sections := renumber (t.sections.eraseIdx i) }) },
               [],
               [⟨"Section supprimée", "La section a été supprimée du template.", false⟩]⟩
      else ⟨st, [], []⟩

/-- The validation/normalization pass of `handleSave` over one section:
every missing (or, for the `||`-guarded string fields, empty) field is
replaced by a fixed default. -/
def validateSection (s : Section) : VSection :=
  { id := s.id,
    name := jsOrStr s.name "Section sans nom",
    description := jsOrStr s.description "Description de la section",
    required := s.required.getD false,
    default_enabled := s.default_enabled.getD true,
    order := s.order.getD 0,
    rag_query_template := jsOrStr s.rag_query_template "informations sur {product_name} dans la catégorie {product_category}",
    prompt_template := jsOrStr s.prompt_template "Générer une section sur {product_name} en utilisant les informations suivantes: {client_data_context}" }

/-- Embeds the create-or-update decision: the template is new when its id is
absent, empty, or does not start with the custom prefix. -/
def isNewTemplate (id : Option String) : Bool :=
  match id with
  | none => true
  | some s => s = "" || !(jsStartsWith s "custom_")

/-- The request body `{name, description, sections: validatedSections, is_default}`. -/
def saveBody (t : Template) : SaveBody :=
  { name := t.name,
    description := t.description,
    sections := t.sections.map validateSection,
    is_default := t.is_default }

/-- The single request `handleSave` issues for the edit buffer: `POST` to
the templates collection when `isNewTemplate`, else `PUT` to the id. -/
def saveRequestOf (t : Template) : Request :=
  if isNewTemplate t.id then Request.create (saveBody t)
  else Request.update (jsId t.id) (saveBody t)

/-- Embeds the custom-flag recomputation on the saved template: the id is
present, non-empty, and starts with the custom prefix (truthiness of the
JS conjunction). -/
def jsIdCustom (id : Option String) : Bool :=
  match id with
  | none => false
  | some s => decide (s ≠ "") && jsStartsWith s "custom_"

/-- Embeds `handleSave`: no-op without an edit buffer; otherwise clear the
banners, issue the create/update request; on failure set the error banner
and fire a destructive toast; on success recompute the saved
`is_custom` flag from the returned id, re-fetch the list, make the saved template
active, seed the edit buffer with a copy of it and set the success
banner.  `so` is the outcome of the save call, `fo` of the re-fetch. -/
def handleSave (st : ManagerState) (so : Except String Template)
    (fo : Except String (List Template)) : Output :=
  match st.editedTemplate with
  | none => ⟨st, [], []⟩
  | some t =>
      let st0 := { st with error := none, success := none }
      let req := saveRequestOf t
      match so with
      | Except.error msg =>
          ⟨{ st0 with error := some ("Erreur lors de la sauvegarde: " ++ msg) },
           [req],
           [⟨"Erreur", "Impossible de sauvegarder le template. Veuillez réessayer.", true⟩]⟩
      | Except.ok saved =>
          let saved' := { saved with is_custom := jsIdCustom saved.id }
          let f := fetchTemplates st0 fo
          ⟨{ f.state with
               activeTemplate := some saved', editedTemplate := some saved',
               success := some "Template sauvegardé avec succès" },
           req :: f.requests,
           f.toasts ++ [⟨"Succès", "Le template a été sauvegardé avec succès.", false⟩]⟩

/-- Embeds `handleDelete`: no-op unless the active template exists and is custom;
otherwise clear the banners and issue the DELETE; on failure set the
error banner and fire a destructive toast; on success re-fetch the list
(the active template is still set during that re-fetch, so no
auto-selection happens), then clear the active template and the edit
buffer and set the success banner. -/
def handleDelete (st : ManagerState) (dout : Except String Unit)
    (fo : Except String (List Template)) : Output :=
  match st.activeTemplate with
  | none => ⟨st, [], []⟩
  | some a =>
      if a.is_custom then
        let st0 := { st with error := none, success := none }
        match dout with
        | Except.error msg =>
            ⟨{ st0 with error := some ("Erreur lors de la suppression: " ++ msg) },
             [Request.deleteT (jsId a.id)],
             [⟨"Erreur", "Impossible de supprimer le template. Veuillez réessayer.", true⟩]⟩
        | Except.ok _ =>
            let f := fetchTemplates st0 fo
            ⟨{ f.state with
                 activeTemplate := none, editedTemplate := none,
                 success := some "Template supprimé avec succès" },
             Request.deleteT (jsId a.id) :: f.requests,
             f.toasts ++ [⟨"Succès", "Le template a été supprimé avec succès.", false⟩]⟩
      else ⟨st, [], []⟩

/-- Embeds the base-template lookup: find the template with the chosen id,
falling back to the head of the list. -/
def findBase (st : ManagerState) (baseId : String) : Option Template :=
  (st.templates.find? (fun t => decide (t.id = some baseId))).orElse
    (fun _ => st.templates.head?)

/-- Embeds `handleCreateTemplate`: reject (toast only) when the trimmed name is
blank; look up the base template (falling back to the first of the list);
when none exists, reading `.name`/`.sections` of `undefined` throws a
`TypeError`, which the surrounding try/catch turns into the error banner
and a destructive toast (the exact JS runtime message is abstracted in
that string); otherwise build the new in-memory template over a deep copy
of the base sections under the placeholder id and the custom flag, make
it active and load it into the edit buffer.  No request is issued. -/
def handleCreateTemplate (st : ManagerState) (newName newDesc baseId : String) :
    Output :=
  if jsTrim newName = "" then
    ⟨st, [], [⟨"Erreur", "Le nom du template est requis.", true⟩]⟩
  else
    match findBase st baseId with
    | none =>
        ⟨{ st with error := some "Erreur lors de la création du template: TypeError" },
         [],
         [⟨"Erreur", "Impossible de créer le template. Veuillez réessayer.", true⟩]⟩
    | some b =>
        let nt : Template :=
          { id := some "new_template",
            name := newName,
            description :=
              if newDesc = "" then "Template personnalisé basé sur " ++ b.name
              else newDesc,
            sections := b.sections,
            is_default := false,
            is_custom := true }
        ⟨{ st with activeTemplate := some nt, editedTemplate := some nt }, [], []⟩

/-- The duplicate button of a non-custom template: deep-copy the edit
buffer, give the copy the placeholder id, the custom flag and the
copy-marker name, and make it both active and edited.  No request is
issued. -/
def duplicateTemplate (st : ManagerState) : ManagerState :=
  match st.editedTemplate with
  | none => st
  | some t =>
      let copy := { t with id := some "new_template", is_custom := true,
                           name := "Copie de " ++ t.name }
      { st with activeTemplate := some copy, editedTemplate := some copy }

/-- The `order` values form the contiguous sequence `1..N` (as a multiset:
no gaps, no duplicates), `N` the number of sections. -/
def contiguous (l : List Section) : Prop :=
  List.Perm (l.map (fun s => s.order))
    ((List.range l.length).map (fun j : Nat => some ((j : Int) + 1)))

instance (l : List Section) : Decidable (contiguous l) := by
  unfold contiguous; exact inferInstance

/-! Concrete fixtures used by witnesses and counterexamples. -/

/-- A fully populated section with `order = 1`. -/
def sFull : Section :=
  ⟨"s1", some "Nom", some "Desc", some false, some true, some 1, some "rq", some "pt"⟩

/-- A section whose `order` is 5 (reachable through the order input field). -/
def sFive : Section := { sFull with order := some 5 }

/-- A required section. -/
def sReq : Section := { sFull with required := some true }

/-- A section with every optional field absent. -/
def sBare : Section := ⟨"s0", none, none, none, none, none, none, none⟩

/-- A custom template holding one deletable section. -/
def tCustom : Template := ⟨some "custom_1", "T", "D", [sFull], false, true⟩

/-- A custom template whose only section carries `order = 5`. -/
def tCustomFive : Template := { tCustom with sections := [sFive] }

/-- A custom template holding one required section. -/
def tCustomReq : Template := { tCustom with sections := [sReq] }

/-- A non-custom (default) template holding one required section. -/
def tDefault : Template := ⟨some "default_1", "T", "D", [sReq], true, false⟩

/-- Component state with the given edit buffer and nothing else set. -/
def stEdited (t : Template) : ManagerState := ⟨[], none, some t, none, none⟩

/-- Component state with the given template loaded everywhere. -/
def stLoaded (t : Template) : ManagerState := ⟨[t], some t, some t, none, none⟩

/-- The empty component state (initial mount). -/
def stEmpty : ManagerState := ⟨[], none, none, none, none⟩

/-! Helper lemmas. -/

/-- The function `handleSectionChange` never writes the templates list. -/
theorem handleSectionChange_templates (st : ManagerState) (i : Nat) (f : FieldUpdate) :
    (handleSectionChange st i f).templates = st.templates := by
  unfold handleSectionChange
  cases st.editedTemplate with
  | none => rfl
  | some t =>
      dsimp only
      cases t.sections.get? i <;> rfl

/-- An empty string cannot carry the custom prefix. -/
theorem jsStartsWith_empty : jsStartsWith "" "custom_" = false := by decide

/-- C1: `handleSave` issues exactly one save request for the edit buffer;
that request is a PUT (update) to the id of the buffer if and only if the id
is present and starts with `custom_`, and otherwise a `POST` (create) to
the templates collection; in particular an absent id yields create,
`custom_42` yields update to `custom_42`, and `default_7` yields create. -/
theorem c1_save_decision (st : ManagerState) (t : Template)
    (so : Except String Template) (fo : Except String (List Template))
    (h : st.editedTemplate = some t) :
    (handleSave st so fo).requests.head? = some (saveRequestOf t) ∧
    (∀ s : String, (t.id = some s ∧ jsStartsWith s "custom_" = true) ↔
      saveRequestOf t = Request.update s (saveBody t)) ∧
    saveRequestOf { t with id := none } =
      Request.create (saveBody { t with id := none }) ∧
    saveRequestOf { t with id := some "custom_42" } =
      Request.update "custom_42" (saveBody { t with id := some "custom_42" }) ∧
    saveRequestOf { t with id := some "default_7" } =
      Request.create (saveBody { t with id := some "default_7" }) := by
  refine ⟨?_, ?_, ?_, ?_, ?_⟩
  · unfold handleSave
    rw [h]
    cases so <;> rfl
  · intro s
    constructor
    · rintro ⟨hid, hsw⟩
      have hs : s ≠ "" := by
        intro he
        rw [he] at hsw
        exact absurd hsw (by decide)
      simp [saveRequestOf, isNewTemplate, hid, hsw, hs, jsId]
    · intro he
      unfold saveRequestOf at he
      rcases hid : t.id with _ | u
      · rw [hid] at he
        simp [isNewTemplate] at he
      · rw [hid] at he
        cases hsw : jsStartsWith u "custom_" with
        | false =>
            have hnt : isNewTemplate (some u) = true := by
              simp [isNewTemplate, hsw]
            rw [hnt] at he
            simp at he
        | true =>
            have hu0 : u ≠ "" := by
              intro he0
              rw [he0] at hsw
              exact absurd hsw (by decide)
            have hnf : isNewTemplate (some u) = false := by
              simp [isNewTemplate, hsw, hu0]
            rw [hnf] at he
            simp only [Bool.false_eq_true, if_false, jsId, Option.getD_some,
              Request.update.injEq] at he
            obtain ⟨hus, -⟩ := he
            cases hus
            exact ⟨rfl, hsw⟩
  · simp [saveRequestOf, isNewTemplate]
  · have hc : isNewTemplate (some "custom_42") = false := by decide
    simp [saveRequestOf, hc, jsId]
  · have hd : isNewTemplate (some "default_7") = true := by decide
    simp [saveRequestOf, hd]

/-- Witness for C1 at a concrete edit buffer. -/
theorem c1_save_decision_witness :
    (handleSave (stEdited tCustom) (Except.error "boom") (Except.error "boom")).requests.head?
      = some (saveRequestOf tCustom) :=
  (c1_save_decision (stEdited tCustom) tCustom (Except.error "boom")
    (Except.error "boom") rfl).1

/-- C4: the validation pass of `handleSave` is a total function that
replaces every missing optional field of a section by its fixed default
(shown field by field, and in full for a section where every optional
field is absent), keeps the id, and the save still issues its request on
such data — it never rejects a section for incompleteness. -/
theorem c4_validation_defaults (s : Section)
    (h1 : s.name = none) (h2 : s.description = none) (h3 : s.required = none)
    (h4 : s.default_enabled = none) (h5 : s.order = none)
    (h6 : s.rag_query_template = none) (h7 : s.prompt_template = none)
    (st : ManagerState) (t : Template)
    (so : Except String Template) (fo : Except String (List Template))
    (h8 : st.editedTemplate = some t) :
    validateSection s =
      { id := s.id,
        name := "Section sans nom",
        description := "Description de la section",
        required := false,
        default_enabled := true,
        order := 0,
        rag_query_template := "informations sur {product_name} dans la catégorie {product_category}",
        prompt_template := "Générer une section sur {product_name} en utilisant les informations suivantes: {client_data_context}" } ∧
    (∀ s' : Section, s'.name = none → (validateSection s').name = "Section sans nom") ∧
    (∀ s' : Section, s'.description = none →
      (validateSection s').description = "Description de la section") ∧
    (∀ s' : Section, s'.required = none → (validateSection s').required = false) ∧
    (∀ s' : Section, s'.default_enabled = none →
      (validateSection s').default_enabled = true) ∧
    (∀ s' : Section, s'.order = none → (validateSection s').order = 0) ∧
    (∀ s' : Section, (validateSection s').id = s'.id) ∧
    (handleSave st so fo).requests ≠ [] := by
  refine ⟨?_, ?_, ?_, ?_, ?_, ?_, ?_, ?_⟩
  · simp [validateSection, h1, h2, h3, h4, h5, h6, h7, jsOrStr]
  · intro s' hs'; simp [validateSection, hs', jsOrStr]
  · intro s' hs'; simp [validateSection, hs', jsOrStr]
  · intro s' hs'; simp [validateSection, hs']
  · intro s' hs'; simp [validateSection, hs']
  · intro s' hs'; simp [validateSection, hs']
  · intro s'; rfl
  · unfold handleSave
    rw [h8]
    cases so <;> simp

/-- Witness for C4 at a section with every optional field absent. -/
theorem c4_validation_defaults_witness :
    (validateSection sBare).name = "Section sans nom" :=
  ((c4_validation_defaults sBare rfl rfl rfl rfl rfl rfl rfl
    (stEdited tCustom) tCustom (Except.error "boom") (Except.error "boom")
    rfl).2.1) sBare rfl

/-- Renumbering does not change the number of sections. -/
theorem renumberFrom_length (l : List Section) : ∀ k, (renumberFrom k l).length = l.length := by
  induction l with
  | nil => intro k; rfl
  | cons s rest ih =>
      intro k
      simp [renumberFrom, ih (k + 1)]

/-- The orders produced by renumbering from `k` are `k+1, k+2, …`. -/
theorem renumberFrom_map_order (l : List Section) :
    ∀ k, (renumberFrom k l).map (fun s => s.order) =
      (List.range l.length).map (fun j => some (((k + j : Nat) : Int) + 1)) := by
  induction l with
  | nil => intro k; rfl
  | cons s rest ih =>
      intro k
      simp only [renumberFrom, List.map_cons, List.length_cons,
        List.range_succ_eq_map, List.map_map]
      congr 1
      rw [ih (k + 1)]
      apply List.map_congr_left
      intro j hj
      simp only [Function.comp_apply]
      congr 1
      push_cast
      ring

/-- After a renumbering pass the orders are exactly `1..N`. -/
theorem contiguous_renumber (l : List Section) : contiguous (renumber l) := by
  unfold contiguous renumber
  rw [renumberFrom_map_order l 0, renumberFrom_length l 0]
  have he : (fun j => some (((0 + j : Nat) : Int) + 1)) =
      (fun j : Nat => some ((j : Int) + 1)) := by
    funext j
    simp
  rw [he]

/-- Appending the fresh section keeps the orders contiguous when they
already were. -/
theorem contiguous_append_newSection (l : List Section) (now : Nat)
    (h : contiguous l) : contiguous (l ++ [newSection now l.length]) := by
  unfold contiguous at *
  simp only [List.map_append, List.length_append, List.map_cons, List.map_nil,
    List.length_cons, List.length_nil]
  rw [List.range_succ, List.map_append]
  exact h.append_right _

/-- C2 fails as stated: a custom edit buffer whose single section carries
`order = 5` (reachable through the order input field) gets orders
`[5, 2]` after `addSection`, which is not the contiguous sequence `1..2`. -/
theorem c2_counterexample :
    ((addSection (stEdited tCustomFive) 0).state.editedTemplate.map
       (fun t => t.sections.map (fun s => s.order))) = some [some 5, some 2] ∧
    ((addSection (stEdited tCustomFive) 0).state.editedTemplate.map
       (fun t => decide (contiguous t.sections))) = some false := by
  constructor
  · rfl
  · decide

/-- C2 (amended): provided the `order` values of the edit buffer already form
the contiguous sequence `1..N`, they still form the contiguous sequence
`1..M` (for the resulting number of sections `M`) after any
`addSection` and after any `deleteSection` — a successful deletion
renumbers to `1..N-1`, and a rejected or no-op call leaves the buffer
unchanged. -/
theorem c2_amended_order_contiguous (st : ManagerState) (t : Template)
    (h : st.editedTemplate = some t) (hc : contiguous t.sections)
    (now i : Nat) :
    (∀ t', (addSection st now).state.editedTemplate = some t' →
      contiguous t'.sections) ∧
    (∀ t', (deleteSection st i).state.editedTemplate = some t' →
      contiguous t'.sections) := by
  constructor
  · intro t' ht'
    unfold addSection at ht'
    rw [h] at ht'
    dsimp only at ht'
    by_cases hcu : t.is_custom = true
    · rw [if_pos hcu] at ht'
      dsimp only at ht'
      injection ht' with ht'
      rw [← ht']
      exact contiguous_append_newSection t.sections now hc
    · rw [if_neg hcu] at ht'
      dsimp only at ht'
      rw [h] at ht'
      injection ht' with ht'
      rw [← ht']
      exact hc
  · intro t' ht'
    unfold deleteSection at ht'
    rw [h] at ht'
    dsimp only at ht'
    by_cases hcu : t.is_custom = true
    · rw [if_pos hcu] at ht'
      cases hg : t.sections.get? i with
      | none =>
          rw [hg] at ht'
          dsimp only at ht'
          rw [h] at ht'
          injection ht' with ht'
          rw [← ht']
          exact hc
      | some s =>
          rw [hg] at ht'
          dsimp only at ht'
          by_cases hr : jsTruthy s.required = true
          · rw [if_pos hr] at ht'
            dsimp only at ht'
            rw [h] at ht'
            injection ht' with ht'
            rw [← ht']
            exact hc
          · rw [if_neg hr] at ht'
            dsimp only at ht'
            injection ht' with ht'
            rw [← ht']
            exact contiguous_renumber _
    · rw [if_neg hcu] at ht'
      dsimp only at ht'
      rw [h] at ht'
      injection ht' with ht'
      rw [← ht']
      exact hc

/-- Witness for the amended C2: adding a section to a contiguous buffer. -/
theorem c2_amended_order_contiguous_witness :
    contiguous ({ tCustom with
      sections := tCustom.sections ++ [newSection 0 tCustom.sections.length] } : Template).sections :=
  (c2_amended_order_contiguous (stEdited tCustom) tCustom rfl (by decide) 0 0).1 _ rfl

/-- C3 fails as stated: on a non-custom edit buffer whose section 0 is
`required`, `deleteSection` leaves the state unchanged but returns
silently — no rejection notification is produced. -/
theorem c3_counterexample :
    ((stEdited tDefault).editedTemplate.map
       (fun t => t.sections.map (fun s => s.required))) = some [some true] ∧
    (deleteSection (stEdited tDefault) 0).toasts = [] ∧
    (deleteSection (stEdited tDefault) 0).state = stEdited tDefault := by
  exact ⟨rfl, rfl, rfl⟩

/-- C3 (amended): on a custom edit buffer, deleting a section whose
`required` flag is truthy leaves the whole component state unchanged (in
particular the section list: no removal, no renumbering) and fires
exactly the rejection toast. -/
theorem c3_required_delete_rejected (st : ManagerState) (t : Template)
    (i : Nat) (s : Section)
    (h : st.editedTemplate = some t) (hcu : t.is_custom = true)
    (hg : t.sections.get? i = some s) (hr : s.required = some true) :
    (deleteSection st i).state = st ∧ (deleteSection st i).toasts = [rejectToast] := by
  have hrt : jsTruthy s.required = true := by rw [hr]; rfl
  unfold deleteSection
  rw [h]
  dsimp only
  rw [if_pos hcu, hg]
  dsimp only
  rw [if_pos hrt]
  exact ⟨rfl, rfl⟩

/-- Witness for the amended C3 on a custom buffer with a required section. -/
theorem c3_required_delete_rejected_witness :
    (deleteSection (stEdited tCustomReq) 0).state = stEdited tCustomReq ∧
    (deleteSection (stEdited tCustomReq) 0).toasts = [rejectToast] :=
  c3_required_delete_rejected (stEdited tCustomReq) tCustomReq 0 sReq
    rfl rfl rfl rfl

/-- C5 fails as stated: the handlers copy the `message` of the thrown error
verbatim into `details`, so a failure whose message is empty (for example
`throw new Error("")` from the client library) yields an empty `details`
string, not a non-empty one — the status is still 500. -/
theorem c5_counterexample :
    detailsOf (routeTemplatesGET (Except.error ⟨"", ""⟩)) = some "" ∧
    statusOf (routeTemplatesGET (Except.error ⟨"", ""⟩)) = 500 := by
  exact ⟨rfl, rfl⟩

/-- C5 (amended): each proxy handler returns the JSON body of the backend on
success, and on any failure (thrown network error, or for the POST route
also a request-body parse failure) returns the fixed-shape
`{error, details, stack}` object with status 500 whose `details` equals
the message of the underlying error — hence non-empty whenever that message is
non-empty — and, being a total function, never propagates an exception. -/
theorem c5_amended_proxy_errors (e : ErrInfo) (d r : JsonVal)
    (bk bk2 : JsonVal → Except ErrInfo JsonVal)
    (hbk : bk d = Except.ok r) (hbk2 : bk2 d = Except.error e) :
    routeTemplatesGET (Except.ok d) = ProxyResponse.json d 200 ∧
    routeTemplatesGET (Except.error e) =
      ProxyResponse.json (errorPayload "Erreur lors de la récupération des templates" e) 500 ∧
    statusOf (routeTemplatesGET (Except.error e)) = 500 ∧
    detailsOf (routeTemplatesGET (Except.error e)) = some e.message ∧
    (e.message ≠ "" → detailsOf (routeTemplatesGET (Except.error e)) ≠ some "") ∧
    routeGenerateWithRagPOST (Except.ok d) bk = ProxyResponse.json r 200 ∧
    routeGenerateWithRagPOST (Except.ok d) bk2 =
      ProxyResponse.json (errorPayload "Erreur lors de la génération avec RAG" e) 500 ∧
    routeGenerateWithRagPOST (Except.error e) bk =
      ProxyResponse.json (errorPayload "Erreur lors de la génération avec RAG" e) 500 ∧
    statusOf (routeGenerateWithRagPOST (Except.ok d) bk2) = 500 ∧
    detailsOf (routeGenerateWithRagPOST (Except.ok d) bk2) = some e.message := by
  have hpost2 : routeGenerateWithRagPOST (Except.ok d) bk2 =
      ProxyResponse.json (errorPayload "Erreur lors de la génération avec RAG" e) 500 := by
    unfold routeGenerateWithRagPOST
    dsimp only
    rw [hbk2]
  refine ⟨rfl, rfl, rfl, rfl, ?_, ?_, hpost2, rfl, ?_, ?_⟩
  · intro hm hcon
    have : e.message = "" := by
      have hd : detailsOf (routeTemplatesGET (Except.error e)) = some e.message := rfl
      rw [hd] at hcon
      exact Option.some_injective _ hcon
    exact hm this
  · unfold routeGenerateWithRagPOST
    dsimp only
    rw [hbk]
  · rw [hpost2]
    rfl
  · rw [hpost2]
    rfl

/-- Witness for the amended C5 at a concrete unreachable-backend error. -/
theorem c5_amended_proxy_errors_witness :
    statusOf (routeTemplatesGET
      (Except.error ⟨"connect ECONNREFUSED 127.0.0.1:8050", "trace"⟩)) = 500 :=
  (c5_amended_proxy_errors ⟨"connect ECONNREFUSED 127.0.0.1:8050", "trace"⟩
    JsonVal.null JsonVal.null (fun _ => Except.ok JsonVal.null)
    (fun _ => Except.error ⟨"connect ECONNREFUSED 127.0.0.1:8050", "trace"⟩)
    rfl rfl).2.2.1

/-- C6: `handleDelete` is a no-op unless the active template is custom;
on a failed backend call the templates list, active selection and edit
buffer are untouched and only an error banner plus toast are produced; on
success the list is re-fetched and the active selection and edit buffer
are cleared to the nothing-selected state. -/
theorem c6_delete_lifecycle (st : ManagerState) :
    (st.activeTemplate = none →
      ∀ dout fo, handleDelete st dout fo = ⟨st, [], []⟩) ∧
    (∀ a, st.activeTemplate = some a → a.is_custom = false →
      ∀ dout fo, handleDelete st dout fo = ⟨st, [], []⟩) ∧
    (∀ a m fo, st.activeTemplate = some a → a.is_custom = true →
      (handleDelete st (Except.error m) fo).state.templates = st.templates ∧
      (handleDelete st (Except.error m) fo).state.activeTemplate = st.activeTemplate ∧
      (handleDelete st (Except.error m) fo).state.editedTemplate = st.editedTemplate ∧
      (handleDelete st (Except.error m) fo).state.error.isSome = true ∧
      (handleDelete st (Except.error m) fo).requests = [Request.deleteT (jsId a.id)] ∧
      (handleDelete st (Except.error m) fo).toasts ≠ []) ∧
    (∀ a l, st.activeTemplate = some a → a.is_custom = true →
      (handleDelete st (Except.ok ()) (Except.ok l)).state.templates = l ∧
      (handleDelete st (Except.ok ()) (Except.ok l)).state.activeTemplate = none ∧
      (handleDelete st (Except.ok ()) (Except.ok l)).state.editedTemplate = none ∧
      Request.fetchList ∈ (handleDelete st (Except.ok ()) (Except.ok l)).requests) := by
  refine ⟨?_, ?_, ?_, ?_⟩
  · intro ha dout fo
    unfold handleDelete
    rw [ha]
  · intro a ha hcu dout fo
    unfold handleDelete
    rw [ha]
    dsimp only
    rw [if_neg (by rw [hcu]; exact Bool.false_ne_true)]
  · intro a m fo ha hcu
    unfold handleDelete
    rw [ha]
    dsimp only
    rw [if_pos hcu]
    exact ⟨rfl, rfl, rfl, rfl, rfl, by simp⟩
  · intro a l ha hcu
    unfold handleDelete
    rw [ha]
    dsimp only
    rw [if_pos hcu]
    dsimp only
    unfold fetchTemplates
    dsimp only
    cases l with
    | nil => exact ⟨rfl, rfl, rfl, by simp⟩
    | cons x xs => exact ⟨rfl, rfl, rfl, by simp⟩


/-- Witness for C6: deleting a custom template that fails at the backend
leaves the selection untouched. -/
theorem c6_delete_lifecycle_witness :
    (handleDelete (stLoaded tCustom) (Except.error "boom")
      (Except.ok [])).state.activeTemplate = (stLoaded tCustom).activeTemplate :=
  (((c6_delete_lifecycle (stLoaded tCustom)).2.2.1) tCustom "boom"
    (Except.ok []) rfl rfl).2.1

/-- Writing one field never changes the others. -/
theorem setField_frame (s : Section) (f : FieldUpdate) (g : FieldName)
    (hg : g ≠ fieldTarget f) : getF (setField s f) g = getF s g := by
  cases f <;> cases g <;> simp_all [setField, getF, fieldTarget]

/-- Writing one field stores exactly the given value. -/
theorem setField_target (s : Section) (f : FieldUpdate) :
    getF (setField s f) (fieldTarget f) = fieldVal f := by
  cases f <;> rfl

/-- The copy built by the duplicate button. -/
def dupOf (t : Template) : Template :=
  { t with id := some "new_template", is_custom := true,
           name := "Copie de " ++ t.name }

/-- The in-memory template built by `handleCreateTemplate` from its base. -/
def createdOf (nm ds : String) (b : Template) : Template :=
  { id := some "new_template",
    name := nm,
    description :=
      if ds = "" then "Template personnalisé basé sur " ++ b.name else ds,
    sections := b.sections,
    is_default := false,
    is_custom := true }

/-- C7: duplicating a non-custom edit buffer yields a buffer with the
placeholder id, the custom flag, the copy-marker name and the same
section list, and the create-from-dialog path yields a buffer with the
placeholder id, the custom flag and the section list of the base template with
no request issued; in both cases the templates list is untouched and
stays untouched under any later section edit of the copy (the deep copy
shares no state with the stored templates). -/
theorem c7_duplicate_deep_copy (st : ManagerState) (t : Template)
    (nm ds bid : String) (b : Template)
    (h1 : st.editedTemplate = some t) (h2 : t.is_custom = false)
    (h3 : jsTrim nm ≠ "") (h4 : findBase st bid = some b) :
    (∃ c, (duplicateTemplate st).editedTemplate = some c ∧
      (duplicateTemplate st).activeTemplate = some c ∧
      c.id = some "new_template" ∧ c.is_custom = true ∧
      c.name = "Copie de " ++ t.name ∧ c.sections = t.sections ∧
      (duplicateTemplate st).templates = st.templates ∧
      (∀ i f, (handleSectionChange (duplicateTemplate st) i f).templates =
        st.templates)) ∧
    (∃ nt, (handleCreateTemplate st nm ds bid).state.editedTemplate = some nt ∧
      (handleCreateTemplate st nm ds bid).state.activeTemplate = some nt ∧
      nt.id = some "new_template" ∧ nt.is_custom = true ∧
      nt.name = nm ∧ nt.sections = b.sections ∧
      (handleCreateTemplate st nm ds bid).requests = [] ∧
      (handleCreateTemplate st nm ds bid).state.templates = st.templates ∧
      (∀ i f, (handleSectionChange (handleCreateTemplate st nm ds bid).state i f).templates =
        st.templates)) := by
  have hd : duplicateTemplate st =
      { st with
          activeTemplate := some (dupOf t),
          editedTemplate := some (dupOf t) } := by
    unfold duplicateTemplate dupOf
    rw [h1]
  have hc : handleCreateTemplate st nm ds bid =
      ⟨{ st with
           activeTemplate := some (createdOf nm ds b),
           editedTemplate := some (createdOf nm ds b) },
       [], []⟩ := by
    unfold handleCreateTemplate createdOf
    rw [if_neg h3, h4]
  constructor
  · refine ⟨dupOf t, by rw [hd], by rw [hd], rfl, rfl, rfl, rfl,
      by rw [hd], ?_⟩
    intro i f
    rw [handleSectionChange_templates, hd]
  · refine ⟨createdOf nm ds b, by rw [hc], by rw [hc], rfl, rfl, rfl, rfl,
      by rw [hc], by rw [hc], ?_⟩
    intro i f
    rw [handleSectionChange_templates, hc]

/-- Witness for C7: duplicating a concrete default template keeps the
stored list intact. -/
theorem c7_duplicate_deep_copy_witness :
    (duplicateTemplate (stLoaded tDefault)).templates = (stLoaded tDefault).templates :=
  ((c7_duplicate_deep_copy (stLoaded tDefault) tDefault "Nouveau" "" "default_1"
    tDefault rfl rfl (by decide) rfl).1).elim
    (fun _ hx => hx.2.2.2.2.2.2.1)

/-- C8: a successful fetch stores the returned list; when no template is
active it selects the head of a non-empty list and seeds the edit buffer
with it, and on an empty list nothing gets selected and the edit buffer
is left as it was (in particular it stays empty on initial mount) with no
exception — the embedding is a total function. -/
theorem c8_fetch_first_or_empty (st : ManagerState) (l : List Template)
    (hA : st.activeTemplate = none) :
    (fetchTemplates st (Except.ok l)).state.templates = l ∧
    (∀ t rest, l = t :: rest →
      (fetchTemplates st (Except.ok l)).state.activeTemplate = some t ∧
      (fetchTemplates st (Except.ok l)).state.editedTemplate = some t) ∧
    (l = [] →
      (fetchTemplates st (Except.ok l)).state.activeTemplate = none ∧
      (fetchTemplates st (Except.ok l)).state.editedTemplate = st.editedTemplate) := by
  unfold fetchTemplates
  dsimp only
  rw [hA]
  cases l with
  | nil =>
      refine ⟨rfl, ?_, fun _ => ⟨rfl, rfl⟩⟩
      intro t rest hcon
      cases hcon
  | cons x xs =>
      refine ⟨rfl, ?_, ?_⟩
      · intro t rest hx
        injection hx with hx1 hx2
        rw [hx1]
        exact ⟨rfl, rfl⟩
      · intro hcon
        cases hcon

/-- Witness for C8: fetching an empty list on initial mount selects
nothing and raises nothing. -/
theorem c8_fetch_first_or_empty_witness :
    (fetchTemplates stEmpty (Except.ok [])).state.activeTemplate = none ∧
    (fetchTemplates stEmpty (Except.ok [])).state.editedTemplate = stEmpty.editedTemplate :=
  (c8_fetch_first_or_empty stEmpty [] rfl).2.2 rfl

/-- C9: a field-level edit on a section of the edit buffer changes only
the named field of the section at the given index: every other field of
that section, every other section, the templates list, the active
selection and the banners are unchanged. -/
theorem c9_section_edit_frame (st : ManagerState) (t : Template)
    (i : Nat) (f : FieldUpdate)
    (h : st.editedTemplate = some t) (hi : i < t.sections.length) :
    (handleSectionChange st i f).templates = st.templates ∧
    (handleSectionChange st i f).activeTemplate = st.activeTemplate ∧
    (handleSectionChange st i f).error = st.error ∧
    (handleSectionChange st i f).success = st.success ∧
    (∃ t', (handleSectionChange st i f).editedTemplate = some t' ∧
      t'.id = t.id ∧ t'.name = t.name ∧ t'.description = t.description ∧
      t'.is_default = t.is_default ∧ t'.is_custom = t.is_custom ∧
      t'.sections.length = t.sections.length ∧
      (∀ j, j ≠ i → t'.sections.get? j = t.sections.get? j) ∧
      (∀ sNew sOld, t'.sections.get? i = some sNew →
        t.sections.get? i = some sOld →
        getF sNew (fieldTarget f) = fieldVal f ∧
        (∀ g, g ≠ fieldTarget f → getF sNew g = getF sOld g))) := by
  cases hg : t.sections.get? i with
  | none =>
      exfalso
      have := List.get?_eq_none.mp hg
      omega
  | some s =>
      have hstep : handleSectionChange st i f =
          { st with
              editedTemplate :=
                some ({ t with sections := t.sections.set i (setField s f) }) } := by
        unfold handleSectionChange
        rw [h]
        dsimp only
        rw [hg]
      refine ⟨by rw [hstep], by rw [hstep], by rw [hstep], by rw [hstep],
        { t with sections := t.sections.set i (setField s f) },
        by rw [hstep], rfl, rfl, rfl, rfl, rfl, by simp, ?_, ?_⟩
      · intro j hj
        exact List.get?_set_ne _ _ (fun hij => hj hij.symm)
      · intro sNew sOld hNew hOld
        have hx : (t.sections.set i (setField s f)).get? i = some (setField s f) :=
          List.get?_set_eq_of_lt _ hi
        have hNew2 : setField s f = sNew :=
          Option.some_injective _ (hx.symm.trans hNew)
        have hOld2 : s = sOld := Option.some_injective _ hOld
        rw [← hNew2, ← hOld2]
        exact ⟨setField_target s f, fun g hgne => setField_frame s f g hgne⟩

/-- Witness for C9: renaming section 0 of a concrete buffer keeps the
templates list intact. -/
theorem c9_section_edit_frame_witness :
    (handleSectionChange (stLoaded tCustom) 0 (FieldUpdate.name "Autre")).templates =
      (stLoaded tCustom).templates :=
  (c9_section_edit_frame (stLoaded tCustom) tCustom 0 (FieldUpdate.name "Autre")
    rfl (by decide)).1

/-- C10: creating from the dialog with a non-blank name while the
templates list is empty is caught internally — the base-template lookup
yields nothing and the resulting `TypeError` is turned into an error
banner and a toast; the active template, the edit buffer and the
templates list are unchanged and no request is issued. -/
theorem c10_create_empty_list (st : ManagerState) (nm ds bid : String)
    (h1 : st.templates = []) (h2 : jsTrim nm ≠ "") :
    (handleCreateTemplate st nm ds bid).state.activeTemplate = st.activeTemplate ∧
    (handleCreateTemplate st nm ds bid).state.editedTemplate = st.editedTemplate ∧
    (handleCreateTemplate st nm ds bid).state.templates = st.templates ∧
    (handleCreateTemplate st nm ds bid).state.error.isSome = true ∧
    (handleCreateTemplate st nm ds bid).toasts ≠ [] ∧
    (handleCreateTemplate st nm ds bid).requests = [] := by
  have hb : findBase st bid = none := by
    unfold findBase
    rw [h1]
    rfl
  unfold handleCreateTemplate
  rw [if_neg h2, hb]
  exact ⟨rfl, rfl, rfl, rfl, by simp, rfl⟩

/-- Witness for C10 on the empty initial state. -/
theorem c10_create_empty_list_witness :
    (handleCreateTemplate stEmpty "Nouveau" "" "").state.editedTemplate =
      stEmpty.editedTemplate :=
  (c10_create_empty_list stEmpty "Nouveau" "" "" rfl (by decide)).2.1

end TM
